import Mathlib

/-!
Verification of the Gd shim stack orchestrator
(`main/shim/stack.cc`, namespace `bluetooth::shim`).

The orchestrator is embedded shallowly: the `Stack` record carries the
members of the C++ class (`is_running_`, `stack_manager_`, `stack_thread_`,
`stack_handler_`, `acl_`, `btm_`), each operation is a pure function from a
`Stack` to a pair of an event trace and an optional next state, and a `none`
result stands for a fatal abort (`ASSERT` / `ASSERT_LOG` failure, which in
the source aborts the process).  Bridge and handler pointers are modelled by
a `Bool` recording whether they are non-null.
-/

namespace BtShim

/-- The module identities that `Stack::StartEverything` and
`Stack::StartIdleMode` may request, one constructor per `modules.add<...>()`
template argument appearing in `stack.cc`. -/
inductive ModuleId where
  | HciHal
  | HciLayer
  | StorageModule
  | Dumpsys
  | Controller
  | AclManager
  | SecurityModule
  | AttModule
  | LeAdvertisingManager
  | LeScanningManager
  | L2capClassicModule
  | L2capLeModule
  | ConnectabilityModule
  | DiscoverabilityModule
  | InquiryModule
  | NameModule
  | NameDbModule
  | PageModule
  | ScanModule
  | L2capShim
deriving DecidableEq, Repr

/-- The boolean feature toggles read through `common::InitFlags` in
`Stack::StartEverything` and `Stack::Stop`. -/
structure InitFlags where
  gdHciEnabled : Bool
  gdControllerEnabled : Bool
  gdAclEnabled : Bool
  gdSecurityEnabled : Bool
  gdCoreEnabled : Bool
deriving DecidableEq, Repr, Fintype

/-- Observable steps of the orchestrator, one constructor per statement of
`stack.cc` that acts on the stack members or on an external collaborator.
`assertNotRunning b` / `assertRunning b` record an `ASSERT_LOG` on
`is_running_` whose condition evaluated to `b` (a `false` aborts);
`assertInstance m b` records `ASSERT(stack_manager_.GetInstance<m>() != nullptr)`
with outcome `b`.  `registryShutDown order` records
`stack_manager_.ShutDown()` stopping modules in the order `order`. -/
inductive Event where
  | assertNotRunning (ok : Bool)
  | assertRunning (ok : Bool)
  | buildModules (mods : List ModuleId)
  | newThread
  | registryStartUp (mods : List ModuleId)
  | newHandler
  | assertInstance (m : ModuleId) (ok : Bool)
  | newBtm
  | newAcl
  | setRunning (b : Bool)
  | hciOnResetComplete
  | hciOnShuttingDown
  | deleteAcl
  | deleteBtm
  | handlerClear
  | registryShutDown (order : List ModuleId)
  | deleteHandler
  | threadStopJoin
  | deleteThread
deriving DecidableEq, Repr

/-- The member state of the singleton `Stack` object: the running flag, the
list of modules currently owned by the `StackManager` member (in start
order; modelled from the spec, see `GetInstance`), and whether the thread,
handler and the two legacy bridge pointers are non-null. -/
structure Stack where
  is_running_ : Bool
  stack_manager_ : List ModuleId
  stack_thread_ : Bool
  stack_handler_ : Bool
  acl_ : Bool
  btm_ : Bool
deriving DecidableEq, Repr

/-- The default-initialized singleton returned by `Stack::GetInstance` the
first time: not running, no modules started, all pointers null. -/
def Stack.initial : Stack :=
  { is_running_ := false
    stack_manager_ := []
    stack_thread_ := false
    stack_handler_ := false
    acl_ := false
    btm_ := false }

/-- Modelled from the spec: `StackManager::GetInstance<T>()` is not part of
`stack.cc`; per the Module Registry contract, after `start_all` every
requested identity has exactly one live instance reachable via `get`, so a
lookup returns a non-null instance exactly when the identity is among the
started modules.  `true` stands for a non-null instance pointer. -/
def StackManager.GetInstance (started : List ModuleId) (m : ModuleId) : Bool :=
  started.contains m

/-- The module list built by the feature-toggle branches of
`Stack::StartEverything` (lines 69 to 100), each branch appending its
`modules.add<...>()` calls in source order. -/
def selectedModules (f : InitFlags) : List ModuleId :=
  (if f.gdHciEnabled then
    [ModuleId.HciHal, ModuleId.HciLayer, ModuleId.StorageModule,
     ModuleId.Dumpsys] else []) ++
  (if f.gdControllerEnabled then [ModuleId.Controller] else []) ++
  (if f.gdAclEnabled then [ModuleId.AclManager] else []) ++
  (if f.gdSecurityEnabled then [ModuleId.SecurityModule] else []) ++
  (if f.gdCoreEnabled then
    [ModuleId.AttModule, ModuleId.LeAdvertisingManager,
     ModuleId.LeScanningManager, ModuleId.L2capClassicModule,
     ModuleId.L2capLeModule, ModuleId.ConnectabilityModule,
     ModuleId.DiscoverabilityModule, ModuleId.InquiryModule,
     ModuleId.NameModule, ModuleId.NameDbModule, ModuleId.PageModule,
     ModuleId.ScanModule, ModuleId.StorageModule, ModuleId.L2capShim]
   else [])

/-- `Stack::Start(ModuleList*)`: asserts not running, creates the worker
thread, starts the registry on the module list, creates the handler.  The
trace starts after the caller's own events. -/
def Stack.Start (st : Stack) (mods : List ModuleId) :
    List Event × Option Stack :=
  if st.is_running_ then
    ([Event.assertNotRunning false], none)
  else
    ([Event.assertNotRunning true, Event.newThread,
      Event.registryStartUp mods, Event.newHandler],
     some { st with
              stack_thread_ := true
              stack_manager_ := mods
              stack_handler_ := true })

/-- `Stack::StartIdleMode()`: asserts not running, requests only the
storage module, runs `Start`, asserts the storage module is retrievable,
sets `is_running_`. -/
def Stack.StartIdleMode (st : Stack) : List Event × Option Stack :=
  if st.is_running_ then
    ([Event.assertNotRunning false], none)
  else
    let mods := [ModuleId.StorageModule]
    let inner := st.Start mods
    let tr := [Event.assertNotRunning true, Event.buildModules mods]
      ++ inner.1
    match inner.2 with
    | none => (tr, none)
    | some st1 =>
      if StackManager.GetInstance st1.stack_manager_ ModuleId.StorageModule
      then
        (tr ++ [Event.assertInstance ModuleId.StorageModule true,
                Event.setRunning true],
         some { st1 with is_running_ := true })
      else
        (tr ++ [Event.assertInstance ModuleId.StorageModule false], none)

/-- `Stack::StartEverything()`: asserts not running, builds the module list
from the init flags, runs `Start`, asserts storage and dumpsys instances,
then, under `GdCoreEnabled`, asserts the shim L2cap instance and constructs
the `Btm` bridge; under `GdAclEnabled && !GdCoreEnabled`, constructs the
`Acl` bridge; sets `is_running_`; finally, under `!GdCoreEnabled`, calls
`hci_on_reset_complete`. -/
def Stack.StartEverything (f : InitFlags) (st : Stack) :
    List Event × Option Stack :=
  if st.is_running_ then
    ([Event.assertNotRunning false], none)
  else
    let mods := selectedModules f
    let inner := st.Start mods
    let tr := [Event.assertNotRunning true, Event.buildModules mods]
      ++ inner.1
    match inner.2 with
    | none => (tr, none)
    | some st1 =>
      if !StackManager.GetInstance st1.stack_manager_ ModuleId.StorageModule
      then
        (tr ++ [Event.assertInstance ModuleId.StorageModule false], none)
      else
        let tr := tr ++ [Event.assertInstance ModuleId.StorageModule true]
        if !StackManager.GetInstance st1.stack_manager_ ModuleId.Dumpsys then
          (tr ++ [Event.assertInstance ModuleId.Dumpsys false], none)
        else
          let tr := tr ++ [Event.assertInstance ModuleId.Dumpsys true]
          if f.gdCoreEnabled then
            if !StackManager.GetInstance st1.stack_manager_ ModuleId.L2capShim
            then
              (tr ++ [Event.assertInstance ModuleId.L2capShim false], none)
            else
              (tr ++ [Event.assertInstance ModuleId.L2capShim true,
                      Event.newBtm, Event.setRunning true],
               some { st1 with btm_ := true, is_running_ := true })
          else
            let tr := if f.gdAclEnabled then tr ++ [Event.newAcl] else tr
            let st2 := if f.gdAclEnabled then { st1 with acl_ := true }
                       else st1
            (tr ++ [Event.setRunning true, Event.hciOnResetComplete],
             some { st2 with is_running_ := true })

/-- `Stack::Stop()`: under `!GdCoreEnabled`, first calls
`hci_on_shutting_down`; asserts running; clears `is_running_`; deletes the
`Acl` then the `Btm` bridge; clears the handler queue; shuts the registry
down (in reverse start order, modelled from the spec for
`StackManager::ShutDown`); deletes the handler; stops/joins and deletes the
thread. -/
def Stack.Stop (f : InitFlags) (st : Stack) : List Event × Option Stack :=
  let tr := if !f.gdCoreEnabled then [Event.hciOnShuttingDown] else []
  if !st.is_running_ then
    (tr ++ [Event.assertRunning false], none)
  else
    (tr ++ [Event.assertRunning true, Event.setRunning false,
            Event.deleteAcl, Event.deleteBtm, Event.handlerClear,
            Event.registryShutDown st.stack_manager_.reverse,
            Event.deleteHandler, Event.threadStopJoin, Event.deleteThread],
     some { st with
              is_running_ := false
              acl_ := false
              btm_ := false
              stack_handler_ := false
              stack_thread_ := false
              stack_manager_ := [] })

/-- `Stack::IsRunning()`: returns the `is_running_` flag. -/
def Stack.IsRunning (st : Stack) : Bool :=
  st.is_running_

/-- `Stack::GetStackManager()`: asserts running (a `none` result is the
fatal abort), then returns the registry member. -/
def Stack.GetStackManager (st : Stack) : Option (List ModuleId) :=
  if st.is_running_ then some st.stack_manager_ else none

/-- `Stack::GetAcl()`: asserts running, then returns the `acl_` pointer
(`some b` with `b` recording non-nullness; `none` is the fatal abort). -/
def Stack.GetAcl (st : Stack) : Option Bool :=
  if st.is_running_ then some st.acl_ else none

/-- `Stack::GetBtm()`: asserts running, then returns the `btm_` pointer. -/
def Stack.GetBtm (st : Stack) : Option Bool :=
  if st.is_running_ then some st.btm_ else none

/-- `Stack::GetHandler()`: asserts running, then returns the handler
pointer. -/
def Stack.GetHandler (st : Stack) : Option Bool :=
  if st.is_running_ then some st.stack_handler_ else none

/-- `GetStackManager()->GetInstance<m>()`: the typed module lookup reached
through the registry accessor; fatal when not running, otherwise reports
whether module `m` has a live instance. -/
def Stack.GetModuleInstance (st : Stack) (m : ModuleId) : Option Bool :=
  (st.GetStackManager).map (fun sm => StackManager.GetInstance sm m)

/-- C3: protocol-of-use violations of the Start/Stop state machine are
fatal: `StartEverything` or `StartIdleMode` on a Running stack aborts
(`none`), and `Stop` on a non-Running stack aborts; no recoverable error
value exists on these paths. -/
theorem start_stop_protocol_violations_fatal :
    (∀ (f : InitFlags) (st : Stack), st.is_running_ = true →
      (Stack.StartEverything f st).2 = none ∧
        (Stack.StartIdleMode st).2 = none) ∧
    (∀ (f : InitFlags) (st : Stack), st.is_running_ = false →
      (Stack.Stop f st).2 = none) := by
  refine ⟨fun f st h => ⟨?_, ?_⟩, fun f st h => ?_⟩ <;>
    simp [Stack.StartEverything, Stack.StartIdleMode, Stack.Stop, h]

/-- Witness for C3 at concrete states: a Running stack makes
`StartEverything` abort and the initial stack makes `Stop` abort. -/
theorem start_stop_protocol_violations_fatal_witness :
    (Stack.StartEverything ⟨true, false, false, false, false⟩
        { Stack.initial with is_running_ := true }).2 = none ∧
      (Stack.Stop ⟨true, false, false, false, false⟩ Stack.initial).2 =
        none :=
  ⟨(start_stop_protocol_violations_fatal.1 ⟨true, false, false, false, false⟩
      { Stack.initial with is_running_ := true } rfl).1,
   start_stop_protocol_violations_fatal.2 ⟨true, false, false, false, false⟩
      Stack.initial rfl⟩

/-- C4: every accessor of running state (`GetStackManager`, `GetAcl`,
`GetBtm`, `GetHandler`) fails fatally when the stack is not Running. -/
theorem accessors_fatal_when_not_running (st : Stack)
    (h : st.is_running_ = false) :
    st.GetStackManager = none ∧ st.GetAcl = none ∧ st.GetBtm = none ∧
      st.GetHandler = none := by
  simp [Stack.GetStackManager, Stack.GetAcl, Stack.GetBtm,
    Stack.GetHandler, h]

/-- Witness for C4 at the initial (Idle) stack. -/
theorem accessors_fatal_when_not_running_witness :
    Stack.initial.GetStackManager = none ∧ Stack.initial.GetAcl = none ∧
      Stack.initial.GetBtm = none ∧ Stack.initial.GetHandler = none :=
  accessors_fatal_when_not_running Stack.initial rfl

/-- C6: after `StartEverything` with only `GdHciEnabled` set, the storage
module lookup finds a live instance while the `AclManager` lookup reports
not-found (a null instance, not a fatal error). -/
theorem transport_only_module_visibility :
    ((Stack.StartEverything ⟨true, false, false, false, false⟩
        Stack.initial).2.map
      (fun st2 => (st2.GetModuleInstance ModuleId.StorageModule,
                   st2.GetModuleInstance ModuleId.AclManager))) =
      some (some true, some false) := by
  decide

/-- C8: whenever `GdHciEnabled` is false, `StartEverything` aborts fatally
regardless of the other toggles and of the prior state: the storage and
dumpsys modules are only added under `GdHciEnabled`, while their presence
is asserted unconditionally after startup. -/
theorem startEverything_fatal_without_transport (f : InitFlags) (st : Stack)
    (h : f.gdHciEnabled = false) :
    (Stack.StartEverything f st).2 = none := by
  obtain ⟨fh, fc, fa, fs, fco⟩ := f
  cases fh with
  | true => exact absurd h (by simp)
  | false =>
    cases hr : st.is_running_ <;>
      cases fc <;> cases fa <;> cases fs <;> cases fco <;>
        simp [Stack.StartEverything, Stack.Start, StackManager.GetInstance,
          selectedModules, hr]

/-- Witness for C8: with all toggles false but `GdCoreEnabled`,
`StartEverything` from the initial stack aborts. -/
theorem startEverything_fatal_without_transport_witness :
    (Stack.StartEverything ⟨false, false, false, false, true⟩
      Stack.initial).2 = none :=
  startEverything_fatal_without_transport
    ⟨false, false, false, false, true⟩ Stack.initial rfl

/-- C2: in every `StartEverything` run from the initial stack that
completes without aborting, the steps happen in this order: module-set
selection from the toggles, Execution Context and Registry startup, the
storage and dumpsys instance asserts, bridge construction only for the
active module subsets, and only then the Running mark. -/
theorem startEverything_step_order (f : InitFlags)
    (h : ((Stack.StartEverything f Stack.initial).2).isSome = true) :
    (Stack.StartEverything f Stack.initial).1 =
      [Event.assertNotRunning true, Event.buildModules (selectedModules f),
       Event.assertNotRunning true, Event.newThread,
       Event.registryStartUp (selectedModules f), Event.newHandler,
       Event.assertInstance ModuleId.StorageModule true,
       Event.assertInstance ModuleId.Dumpsys true] ++
      (if f.gdCoreEnabled then
        [Event.assertInstance ModuleId.L2capShim true, Event.newBtm]
       else []) ++
      (if f.gdAclEnabled && !f.gdCoreEnabled then [Event.newAcl] else []) ++
      [Event.setRunning true] ++
      (if !f.gdCoreEnabled then [Event.hciOnResetComplete] else []) := by
  revert h
  revert f
  decide

/-- Witness for C2 at the transport-only configuration. -/
theorem startEverything_step_order_witness :
    ((Stack.StartEverything ⟨true, false, false, false, false⟩
        Stack.initial).2).isSome = true ∧
    (Stack.StartEverything ⟨true, false, false, false, false⟩
        Stack.initial).1 =
      [Event.assertNotRunning true,
       Event.buildModules
         (selectedModules ⟨true, false, false, false, false⟩),
       Event.assertNotRunning true, Event.newThread,
       Event.registryStartUp
         (selectedModules ⟨true, false, false, false, false⟩),
       Event.newHandler,
       Event.assertInstance ModuleId.StorageModule true,
       Event.assertInstance ModuleId.Dumpsys true] ++
      (if (true : Bool) then [] else
        [Event.assertInstance ModuleId.L2capShim true, Event.newBtm]) ++
      [] ++ [Event.setRunning true] ++ [Event.hciOnResetComplete] :=
  ⟨by decide,
   by
    have h := startEverything_step_order ⟨true, false, false, false, false⟩
      (by decide)
    simpa using h⟩

/-- C1 counterexample: in a concrete `Stop` of a Running stack (reached by
`StartIdleMode`), the Idle mark (`setRunning false`) is the third event of
the teardown trace, right after the Running assert, and the final event is
the thread deletion — so Idle is not marked as the final step. -/
theorem stop_marks_idle_before_teardown_cex :
    (Stack.Stop ⟨true, false, false, false, false⟩
        { is_running_ := true,
          stack_manager_ := [ModuleId.StorageModule],
          stack_thread_ := true, stack_handler_ := true,
          acl_ := false, btm_ := false }).1 =
      [Event.hciOnShuttingDown, Event.assertRunning true,
       Event.setRunning false, Event.deleteAcl, Event.deleteBtm,
       Event.handlerClear, Event.registryShutDown [ModuleId.StorageModule],
       Event.deleteHandler, Event.threadStopJoin, Event.deleteThread] ∧
    ((Stack.Stop ⟨true, false, false, false, false⟩
        { is_running_ := true,
          stack_manager_ := [ModuleId.StorageModule],
          stack_thread_ := true, stack_handler_ := true,
          acl_ := false, btm_ := false }).1).getLast? ≠
      some (Event.setRunning false) ∧
    (Stack.StartIdleMode Stack.initial).2 =
      some { is_running_ := true,
             stack_manager_ := [ModuleId.StorageModule],
             stack_thread_ := true, stack_handler_ := true,
             acl_ := false, btm_ := false } := by
  decide

/-- C1 amended: `Stop` on a Running stack marks Idle first (immediately
after the Running assert), then destroys the connection bridge, then the
discovery bridge, clears the pending queue, shuts the Registry down in
reverse start order, and joins and deletes the worker thread; the
`hci_on_shutting_down` call precedes all of this when `GdCoreEnabled` is
false. -/
theorem stop_teardown_order (f : InitFlags) (st : Stack)
    (h : st.is_running_ = true) :
    Stack.Stop f st =
      ((if !f.gdCoreEnabled then [Event.hciOnShuttingDown] else []) ++
        [Event.assertRunning true, Event.setRunning false, Event.deleteAcl,
         Event.deleteBtm, Event.handlerClear,
         Event.registryShutDown st.stack_manager_.reverse,
         Event.deleteHandler, Event.threadStopJoin, Event.deleteThread],
       some { st with
                is_running_ := false, acl_ := false, btm_ := false,
                stack_handler_ := false, stack_thread_ := false,
                stack_manager_ := [] }) := by
  simp [Stack.Stop, h]

/-- Witness for C1 amended at a concrete Running stack. -/
theorem stop_teardown_order_witness :
    Stack.Stop ⟨true, false, false, false, true⟩
        { is_running_ := true,
          stack_manager_ := [ModuleId.StorageModule],
          stack_thread_ := true, stack_handler_ := true,
          acl_ := false, btm_ := false } =
      ((if (!(true : Bool)) then [Event.hciOnShuttingDown] else []) ++
        [Event.assertRunning true, Event.setRunning false, Event.deleteAcl,
         Event.deleteBtm, Event.handlerClear,
         Event.registryShutDown [ModuleId.StorageModule],
         Event.deleteHandler, Event.threadStopJoin, Event.deleteThread],
       some { is_running_ := false,
              stack_manager_ := [],
              stack_thread_ := false, stack_handler_ := false,
              acl_ := false, btm_ := false }) := by
  have h := stop_teardown_order ⟨true, false, false, false, true⟩
    { is_running_ := true,
      stack_manager_ := [ModuleId.StorageModule],
      stack_thread_ := true, stack_handler_ := true,
      acl_ := false, btm_ := false } rfl
  simpa using h

/-- C5: `IsRunning` is the read of the single `is_running_` flag; it is
false on the initial stack, true in the state produced by any completing
`StartEverything` or `StartIdleMode`, and false in the state produced by
any completing `Stop`. -/
theorem isRunning_tracks_lifecycle :
    Stack.IsRunning Stack.initial = false ∧
    (∀ st : Stack, st.IsRunning = st.is_running_) ∧
    (∀ (f : InitFlags) (st st2 : Stack),
      (Stack.StartEverything f st).2 = some st2 →
        st2.IsRunning = true) ∧
    (∀ (st st2 : Stack),
      (Stack.StartIdleMode st).2 = some st2 → st2.IsRunning = true) ∧
    (∀ (f : InitFlags) (st st2 : Stack),
      (Stack.Stop f st).2 = some st2 → st2.IsRunning = false) := by
  refine ⟨rfl, fun st => rfl, ?_, ?_, ?_⟩
  · intro f st st2 h
    obtain ⟨fh, fc, fa, fs, fco⟩ := f
    cases hr : st.is_running_ <;>
      cases fh <;> cases fc <;> cases fa <;> cases fs <;> cases fco <;>
        simp_all [Stack.StartEverything, Stack.Start,
          StackManager.GetInstance, selectedModules, Stack.IsRunning] <;>
        subst h <;> rfl
  · intro st st2 h
    cases hr : st.is_running_ <;>
      simp_all [Stack.StartIdleMode, Stack.Start, StackManager.GetInstance,
        Stack.IsRunning] <;>
      subst h <;> rfl
  · intro f st st2 h
    cases hr : st.is_running_ <;>
      simp_all [Stack.Stop, Stack.IsRunning] <;>
      subst h <;> rfl

/-- Witness for C5: concrete initial, post-Start and post-Stop states. -/
theorem isRunning_tracks_lifecycle_witness :
    Stack.IsRunning Stack.initial = false ∧
    Stack.IsRunning
      ⟨true, [ModuleId.HciHal, ModuleId.HciLayer, ModuleId.StorageModule,
              ModuleId.Dumpsys], true, true, false, false⟩ = true ∧
    Stack.IsRunning Stack.initial = false :=
  ⟨isRunning_tracks_lifecycle.1,
   isRunning_tracks_lifecycle.2.2.1 ⟨true, false, false, false, false⟩
     Stack.initial
     ⟨true, [ModuleId.HciHal, ModuleId.HciLayer, ModuleId.StorageModule,
             ModuleId.Dumpsys], true, true, false, false⟩ (by decide),
   isRunning_tracks_lifecycle.2.2.2.2 ⟨true, false, false, false, false⟩
     ⟨true, [ModuleId.HciHal, ModuleId.HciLayer, ModuleId.StorageModule,
             ModuleId.Dumpsys], true, true, false, false⟩
     Stack.initial (by decide)⟩

/-- C7: `StartIdleMode` aborts when already Running; otherwise it requests
exactly the storage module, starts the registry on that singleton list,
asserts the storage instance is retrievable, and marks Running. -/
theorem startIdleMode_requests_storage_only :
    (∀ st : Stack, st.is_running_ = true →
      (Stack.StartIdleMode st).2 = none) ∧
    (∀ st : Stack, st.is_running_ = false →
      Stack.StartIdleMode st =
        ([Event.assertNotRunning true,
          Event.buildModules [ModuleId.StorageModule],
          Event.assertNotRunning true, Event.newThread,
          Event.registryStartUp [ModuleId.StorageModule], Event.newHandler,
          Event.assertInstance ModuleId.StorageModule true,
          Event.setRunning true],
         some { st with
                  is_running_ := true,
                  stack_manager_ := [ModuleId.StorageModule],
                  stack_thread_ := true, stack_handler_ := true })) := by
  constructor <;> intro st h <;>
    simp [Stack.StartIdleMode, Stack.Start, StackManager.GetInstance, h]

/-- Witness for C7 at a Running stack and at the initial stack. -/
theorem startIdleMode_requests_storage_only_witness :
    (Stack.StartIdleMode
      ⟨true, [ModuleId.StorageModule], true, true, false, false⟩).2 =
        none ∧
    Stack.StartIdleMode Stack.initial =
      ([Event.assertNotRunning true,
        Event.buildModules [ModuleId.StorageModule],
        Event.assertNotRunning true, Event.newThread,
        Event.registryStartUp [ModuleId.StorageModule], Event.newHandler,
        Event.assertInstance ModuleId.StorageModule true,
        Event.setRunning true],
       some { Stack.initial with
                is_running_ := true,
                stack_manager_ := [ModuleId.StorageModule],
                stack_thread_ := true, stack_handler_ := true }) :=
  ⟨startIdleMode_requests_storage_only.1
      ⟨true, [ModuleId.StorageModule], true, true, false, false⟩ rfl,
   startIdleMode_requests_storage_only.2 Stack.initial rfl⟩

/-- C9 counterexample: with `GdCoreEnabled` true but `GdHciEnabled` false,
`StartEverything` aborts at the unconditional instance asserts before
reaching bridge construction, so no `Btm` bridge is constructed even though
`GdCoreEnabled` is true — refuting the unconditional if-and-only-if. -/
theorem bridge_iff_core_cex :
    InitFlags.gdCoreEnabled ⟨false, false, false, false, true⟩ = true ∧
    Event.newBtm ∉
      (Stack.StartEverything ⟨false, false, false, false, true⟩
        Stack.initial).1 ∧
    (Stack.StartEverything ⟨false, false, false, false, true⟩
      Stack.initial).2 = none := by
  decide

/-- C9 amended: in any `StartEverything` from the initial stack, at most
one bridge is constructed and the two bridge slots are never both non-null;
and for every run that completes without aborting, the `Btm` bridge is
constructed iff `GdCoreEnabled`, and the `Acl` bridge iff `GdAclEnabled`
and not `GdCoreEnabled`. -/
theorem bridge_construction_exclusive (f : InitFlags) :
    (¬(Event.newBtm ∈ (Stack.StartEverything f Stack.initial).1 ∧
       Event.newAcl ∈ (Stack.StartEverything f Stack.initial).1)) ∧
    ((Stack.StartEverything f Stack.initial).2.map
        (fun st2 => st2.btm_ && st2.acl_) ≠ some true) ∧
    (((Stack.StartEverything f Stack.initial).2).isSome = true →
      ((Event.newBtm ∈ (Stack.StartEverything f Stack.initial).1) ↔
        f.gdCoreEnabled = true) ∧
      ((Event.newAcl ∈ (Stack.StartEverything f Stack.initial).1) ↔
        (f.gdAclEnabled = true ∧ f.gdCoreEnabled = false))) := by
  revert f
  decide

/-- Witness for C9 amended at the connection-enabled, core-disabled
configuration. -/
theorem bridge_construction_exclusive_witness :
    ((Event.newBtm ∈ (Stack.StartEverything ⟨true, false, true, false,
        false⟩ Stack.initial).1) ↔
      InitFlags.gdCoreEnabled ⟨true, false, true, false, false⟩ = true) ∧
    ((Event.newAcl ∈ (Stack.StartEverything ⟨true, false, true, false,
        false⟩ Stack.initial).1) ↔
      (InitFlags.gdAclEnabled ⟨true, false, true, false, false⟩ = true ∧
       InitFlags.gdCoreEnabled ⟨true, false, true, false, false⟩ =
         false)) :=
  (bridge_construction_exclusive
    ⟨true, false, true, false, false⟩).2.2 (by decide)

/-- C10: while Running, `GetAcl` and `GetBtm` assert only the Running flag
and return the stored (possibly null) bridge pointer; in particular, after
any completing `StartEverything` with `GdCoreEnabled` false, `GetBtm`
returns the null pointer rather than aborting. -/
theorem bridge_accessors_nullable_when_running :
    (∀ st : Stack, st.is_running_ = true →
      st.GetAcl = some st.acl_ ∧ st.GetBtm = some st.btm_) ∧
    (∀ f : InitFlags, f.gdCoreEnabled = false →
      ((Stack.StartEverything f Stack.initial).2.map Stack.GetBtm) =
        ((Stack.StartEverything f Stack.initial).2.map
          (fun _ => some false))) := by
  constructor
  · intro st h
    simp [Stack.GetAcl, Stack.GetBtm, h]
  · decide

/-- Witness for C10 at a concrete Running stack with both bridge slots
null, and at the transport-only configuration. -/
theorem bridge_accessors_nullable_when_running_witness :
    (Stack.GetAcl
        ⟨true, [ModuleId.StorageModule], true, true, false, false⟩ =
        some false ∧
      Stack.GetBtm
        ⟨true, [ModuleId.StorageModule], true, true, false, false⟩ =
        some false) ∧
    ((Stack.StartEverything ⟨true, false, false, false, false⟩
        Stack.initial).2.map Stack.GetBtm =
      (Stack.StartEverything ⟨true, false, false, false, false⟩
        Stack.initial).2.map (fun _ => some false)) :=
  ⟨bridge_accessors_nullable_when_running.1
      ⟨true, [ModuleId.StorageModule], true, true, false, false⟩ rfl,
   bridge_accessors_nullable_when_running.2
      ⟨true, false, false, false, false⟩ rfl⟩

end BtShim
